import Mathlib

/-!
Verification of the query-execution core of the agentic-ai-splunk repository.

Shallow embedding of:
* `src/core/splunk_client.py`  (search execution, index listing)
* `src/core/openai_client.py`  (response parsing)
* `src/core/query_processor.py` (orchestration, health status)
* `src/utils/validators.py`    (SPL query validation)

External collaborators (the Splunk service, the OpenAI completion call, wall-clock
time) are modelled as explicit behaviour records; an operation of a collaborator
that may raise is an `Except String` value whose `error` constructor carries the
exception message.  Wall-clock durations are abstract nonnegative time units.
-/

namespace Spl

/-- A Splunk result record: a JSON object mapping field names to values. -/
abbrev SplRecord := List (String × String)

/-- The statistics dictionary built by the two execution paths of
`SplunkClient`.  `scan_count` is an `Option` because the oneshot path
(`splunk_client.py` lines 141-146) builds a dictionary without that key,
while the job path (lines 184-190) includes it. -/
structure SearchStatistics where
  result_count : Nat
  scan_count : Option Nat
  run_duration : Nat
  search_id : String
  is_done : Bool
  deriving Repr, DecidableEq

/-- The dictionary returned by `SplunkClient.execute_search` and its helpers.
The failure dictionaries in the source carry no `results`/`statistics`/`note`
keys; an absent key is modelled as `[]` / `none`. -/
structure SearchOutcome where
  success : Bool
  results : List SplRecord
  statistics : Option SearchStatistics
  error : Option String
  query : String
  note : Option String
  deriving Repr, DecidableEq

/-! Models of the Python `str` operations used by the source, implemented by
structural recursion over the string's character list (so every definition
evaluates by kernel reduction).  Python's `str.strip`/`\s` whitespace class is
modelled by `Char.isWhitespace`. -/

/-- Python `str.strip()`. -/
def pyStrip (s : String) : String :=
  ⟨(s.data.dropWhile Char.isWhitespace).reverse.dropWhile Char.isWhitespace |>.reverse⟩

/-- Python `str.lower()` (the source only lowercases ASCII SPL text). -/
def pyLower (s : String) : String := ⟨s.data.map Char.toLower⟩

/-- Python `s.startswith(p)`. -/
def pyStartsWith (s p : String) : Bool := p.data.isPrefixOf s.data

/-- Python `len(s)` (counts code points). -/
def pyLen (s : String) : Nat := s.data.length

/-- Split a character list at every occurrence of `c` (Python `str.split(c)`
for a one-character separator). -/
def splitOnChar (c : Char) : List Char → List (List Char)
  | [] => [[]]
  | x :: xs =>
    let r := splitOnChar c xs
    if x = c then [] :: r
    else
      match r with
      | [] => [[x]]
      | h :: t => (x :: h) :: t

/-- Python `s.split('\n')`. -/
def pySplitLines (s : String) : List String :=
  (splitOnChar (Char.ofNat 10) s.data).map String.mk

/-- Lexicographic code-point comparison of character lists (Python `<=` on
strings). -/
def listLe : List Char → List Char → Bool
  | [], _ => true
  | _ :: _, [] => false
  | a :: as, b :: bs =>
    if a.toNat < b.toNat then true
    else if b.toNat < a.toNat then false
    else listLe as bs

/-- Python `a <= b` on strings. -/
def pyLe (a b : String) : Bool := listLe a.data b.data

/-- `pyLe` as a relation, for use with the sorting lemmas. -/
def pyLeRel (a b : String) : Prop := pyLe a b = true

instance : DecidableRel pyLeRel := fun a b => Bool.decEq (pyLe a b) true

theorem listLe_total (a : List Char) : ∀ b, (listLe a b || listLe b a) = true := by
  induction a with
  | nil => intro b; simp [listLe]
  | cons x xs ih =>
    intro b
    cases b with
    | nil => simp [listLe]
    | cons y ys =>
      simp only [listLe]
      by_cases h1 : x.toNat < y.toNat
      · simp [h1]
      · by_cases h2 : y.toNat < x.toNat
        · simp [h1, h2]
        · simp [h1, h2, ih ys]

theorem listLe_trans (a : List Char) :
    ∀ b c, listLe a b = true → listLe b c = true → listLe a c = true := by
  induction a with
  | nil => intro b c _ _; simp [listLe]
  | cons x xs ih =>
    intro b c hab hbc
    cases b with
    | nil => simp [listLe] at hab
    | cons y ys =>
      cases c with
      | nil => simp [listLe] at hbc
      | cons z zs =>
        simp only [listLe] at hab hbc ⊢
        by_cases h1 : x.toNat < y.toNat <;> by_cases h2 : y.toNat < z.toNat
        · simp [show x.toNat < z.toNat by omega]
        · by_cases h3 : z.toNat < y.toNat
          · simp [h2, h3] at hbc
          · have hyz : y.toNat = z.toNat := by omega
            simp [show x.toNat < z.toNat by omega]
        · by_cases h3 : y.toNat < x.toNat
          · simp [h1, h3] at hab
          · have hxy : x.toNat = y.toNat := by omega
            simp [show x.toNat < z.toNat by omega]
        · by_cases h3 : y.toNat < x.toNat
          · simp [h1, h3] at hab
          · by_cases h4 : z.toNat < y.toNat
            · simp [h2, h4] at hbc
            · have hxy : x.toNat = y.toNat := by omega
              have hyz : y.toNat = z.toNat := by omega
              simp only [h1, h3] at hab
              simp only [h2, h4] at hbc
              simp only [if_neg (by omega : ¬x.toNat < z.toNat),
                if_neg (by omega : ¬z.toNat < x.toNat)]
              exact ih ys zs (by simpa using hab) (by simpa using hbc)

instance : IsTotal String pyLeRel :=
  ⟨fun a b => by
    have := listLe_total a.data b.data
    rcases Bool.or_eq_true_iff.mp this with h | h
    · exact Or.inl h
    · exact Or.inr h⟩

instance : IsTrans String pyLeRel :=
  ⟨fun a b c hab hbc => listLe_trans a.data b.data c.data hab hbc⟩

/-- The query prefixes recognized at `splunk_client.py` line 59 (the tuple
passed to `startswith`, checked against the lowercased query). -/
def splPrefixes : List String :=
  ["search ", "tstats ", "inputlookup ", "rest ", "dbquery ", "|"]

/-- Query normalization done by `execute_search` (lines 58-60): strip the
query, and prepend `"search "` unless it already starts with a recognized
prefix. -/
def normalizeQuery (q : String) : String :=
  let t := pyStrip q
  if splPrefixes.any (fun p => pyStartsWith (pyLower t) p) then t else "search " ++ t

/-- Abstract behaviour of the single job created by `_execute_job_search`
(`splunk_client.py` lines 150-210) for one call.

* `isDone n` is the value `job.is_done()` reports after `n` successful
  `job.refresh()` calls (the job state is cached locally, so a failed refresh
  does not change it);
* `exceedsTimeout n` says whether `time.time() - start_time > timeout` at the
  top-of-loop check of iteration `n`;
* `refreshFails n` says whether the `job.refresh()` call of iteration `n`
  raises (the code then `break`s out of the wait loop);
* `cancelFails` says whether `job.cancel()` would raise; the source swallows
  that exception (`except: pass`, lines 167-170), so this field never
  influences any outcome;
* `metaError` is the exception message if reading the job metadata
  (`job.get(...)`/`int`/`float`, lines 180-190) raises;
* `resultCount`, `scanCount`, `runDuration` are the backend-reported job
  metadata, and `sid` is the backend job identifier. -/
structure JobModel where
  sid : String
  createError : Option String
  isDone : Nat → Bool
  exceedsTimeout : Nat → Bool
  refreshFails : Nat → Bool
  cancelFails : Bool
  metaError : Option String
  resultCount : Nat
  scanCount : Nat
  runDuration : Nat

/-- How the wait loop of `_execute_job_search` (lines 163-177) exits:
either normally (recording how many refreshes completed, whether because
`is_done` became true or because a refresh raised and the loop `break`s), or
by raising `TimeoutError`. -/
inductive WaitResult where
  | exited (refreshes : Nat)
  | timedOut
  deriving Repr, DecidableEq

/-- The wait loop of `_execute_job_search`, with explicit fuel; `none` models
a loop that has not exited within `fuel` iterations (the Python loop has no
iteration bound of its own). -/
def waitLoop (j : JobModel) : Nat → Nat → Option WaitResult
  | 0, _ => none
  | fuel + 1, n =>
    if j.isDone n then some (.exited n)
    else if j.exceedsTimeout n then some .timedOut
    else if j.refreshFails n then some (.exited n)
    else waitLoop j fuel (n + 1)

/-- Result of one `_execute_job_search` call: either a returned dictionary or
a propagated exception message, together with whether `job.cancel()` was
attempted. -/
structure JobRun where
  result : Except String SearchOutcome
  cancelAttempted : Bool

/-- The `str(TimeoutError(f"Search timed out after {timeout} seconds"))`
message raised at `splunk_client.py` line 171. -/
def timeoutMessage (timeout : Nat) : String :=
  "Search timed out after " ++ toString timeout ++ " seconds"

/-- The `note` string built at `splunk_client.py` line 201. -/
def jobNote (resultCount : Nat) : String :=
  "Search completed successfully with " ++ toString resultCount ++
    " results (details not parsed due to XML issues)"

/-- `SplunkClient._execute_job_search` (lines 150-210).  `maxResults` is
forwarded to the backend as the job's `count` argument; its effect on the
job's behaviour is already folded into the `JobModel`.  `none` models a call
whose wait loop never exits within `fuel`. -/
def execute_job_search (j : JobModel) (q : String) (maxResults timeout fuel : Nat) :
    Option JobRun :=
  match j.createError with
  | some e => some ⟨.error e, false⟩
  | none =>
    match waitLoop j fuel 0 with
    | none => none
    | some .timedOut => some ⟨.error (timeoutMessage timeout), true⟩
    | some (.exited n) =>
      match j.metaError with
      | some e =>
        some ⟨.ok ⟨false, [], none, some ("Job processing failed: " ++ e), q, none⟩, false⟩
      | none =>
        some ⟨.ok ⟨true, [],
          some ⟨j.resultCount, some j.scanCount, j.runDuration, j.sid, j.isDone n⟩,
          none, q, some (jobNote j.resultCount)⟩, false⟩

/-- Abstract backend behaviour consumed by one `execute_search` call.
`oneshot q c` is the combined outcome of `self.service.jobs.oneshot(q, count=c,
output_mode="json")` plus the result-parsing block (lines 95-131): the records
obtained, or the message of an exception that escapes the inner `try` (parse
errors are swallowed there and yield `.ok []`, so an `.error` corresponds to
the `jobs.oneshot` call itself raising).  `oneshotDuration` is the elapsed
wall time of the oneshot path. -/
structure SearchBackend where
  oneshot : String → Nat → Except String (List SplRecord)
  oneshotDuration : Nat
  job : JobModel

/-- An observable trace of one `execute_search` call: the returned dictionary
(`none` when the fallback poll loop never exits within fuel, i.e. the call
does not return), plus which paths were exercised. -/
structure ExecTrace where
  outcome : Option SearchOutcome
  oneshotAttempted : Bool
  usedOneshot : Bool
  jobAttempted : Bool
  cancelAttempted : Bool
  deriving Repr, DecidableEq

/-- The outer `except` of `execute_search` (lines 74-80) applied to a job-path
run: a propagated exception becomes a `success:false` dictionary carrying the
exception message and the (normalized) query. -/
def jobTrace (q : String) (osa : Bool) : Option JobRun → ExecTrace
  | none => ⟨none, osa, false, true, false⟩
  | some ⟨.ok o, c⟩ => ⟨some o, osa, false, true, c⟩
  | some ⟨.error e, c⟩ => ⟨some ⟨false, [], none, some e, q, none⟩, osa, false, true, c⟩

/-- `SplunkClient.execute_search` (lines 51-80).  The guard at lines 53-54
(`if not self.service: self._connect()`) is omitted: a constructed client
always holds a service handle, since `__init__` propagates any connection
failure. -/
def execute_search (b : SearchBackend) (spl_query : String)
    (max_results timeout fuel : Nat) : ExecTrace :=
  let q := normalizeQuery spl_query
  if max_results ≤ 100 ∧ 30 ≤ timeout then
    match b.oneshot q max_results with
    | .ok recs =>
      ⟨some ⟨true, recs, some ⟨recs.length, none, b.oneshotDuration, "oneshot", true⟩,
        none, q, none⟩, true, true, false, false⟩
    | .error _ => jobTrace q true (execute_job_search b.job q max_results timeout fuel)
  else
    jobTrace q false (execute_job_search b.job q max_results timeout fuel)

/-- Whether an `Except` value is a normal return. -/
def exceptOk : Except String (List SplRecord) → Bool
  | .ok _ => true
  | .error _ => false

theorem jobTrace_oneshotAttempted (q : String) (osa : Bool) (r : Option JobRun) :
    (jobTrace q osa r).oneshotAttempted = osa := by
  rcases r with _ | ⟨e | o, c⟩ <;> rfl

theorem jobTrace_usedOneshot (q : String) (osa : Bool) (r : Option JobRun) :
    (jobTrace q osa r).usedOneshot = false := by
  rcases r with _ | ⟨e | o, c⟩ <;> rfl

theorem jobTrace_jobAttempted (q : String) (osa : Bool) (r : Option JobRun) :
    (jobTrace q osa r).jobAttempted = true := by
  rcases r with _ | ⟨e | o, c⟩ <;> rfl

/-- C1: `execute_search` attempts the oneshot path exactly when
`max_results ≤ 100` and `timeout ≥ 30`; the job path is taken exactly when the
oneshot path did not produce the outcome, i.e. when it was skipped or when the
`jobs.oneshot` call raised, so a raising oneshot falls through to the job path
instead of failing the call, and outside the condition the job path runs
without a oneshot attempt. -/
theorem execute_search_strategy_selection (b : SearchBackend) (q : String)
    (m t fuel : Nat) :
    (execute_search b q m t fuel).oneshotAttempted
        = (decide (m ≤ 100) && decide (30 ≤ t)) ∧
    (execute_search b q m t fuel).usedOneshot
        = ((execute_search b q m t fuel).oneshotAttempted
            && exceptOk (b.oneshot (normalizeQuery q) m)) ∧
    (execute_search b q m t fuel).jobAttempted
        = !(execute_search b q m t fuel).usedOneshot := by
  unfold execute_search
  by_cases h : m ≤ 100 ∧ 30 ≤ t
  · cases hos : b.oneshot (normalizeQuery q) m with
    | ok recs =>
      simp [h, hos, exceptOk]
    | error e =>
      simp [h, hos, exceptOk, jobTrace_oneshotAttempted, jobTrace_usedOneshot,
        jobTrace_jobAttempted]
  · have h1 : ¬(decide (m ≤ 100) && decide (30 ≤ t)) = true := by
      simpa [Bool.and_eq_true] using h
    simp [h, jobTrace_oneshotAttempted, jobTrace_usedOneshot, jobTrace_jobAttempted,
      Bool.eq_false_iff.mpr h1]

theorem job_path_outcome (j : JobModel) (q : String) (m t fuel : Nat) (osa : Bool)
    (o : SearchOutcome)
    (ho : (jobTrace q osa (execute_job_search j q m t fuel)).outcome = some o) :
    (o.success = false → o.results = [] ∧ o.error ≠ none) ∧
    (o.success = true →
      o.results = [] ∧
        o.statistics.map SearchStatistics.result_count = some j.resultCount) := by
  unfold execute_job_search at ho
  cases hc : j.createError with
  | some ce =>
    simp only [hc, jobTrace, Option.some.injEq] at ho
    subst ho
    simp
  | none =>
    cases hw : waitLoop j fuel 0 with
    | none => simp [hc, hw, jobTrace] at ho
    | some w =>
      cases w with
      | timedOut =>
        simp only [hc, hw, jobTrace, Option.some.injEq] at ho
        subst ho
        simp
      | exited n =>
        cases hm : j.metaError with
        | some me =>
          simp only [hc, hw, hm, jobTrace, Option.some.injEq] at ho
          subst ho
          simp
        | none =>
          simp only [hc, hw, hm, jobTrace, Option.some.injEq] at ho
          subst ho
          simp

/-- C2: invariants of the dictionary returned by `execute_search`: a failure
outcome has empty `results` and a set `error`; a fast-path success reports
`result_count = len(results)`; a fallback-path success has empty `results`
while `result_count` is the backend-reported job count. -/
theorem execute_search_outcome_invariant (b : SearchBackend) (q : String)
    (m t fuel : Nat) (o : SearchOutcome)
    (ho : (execute_search b q m t fuel).outcome = some o) :
    (o.success = false → o.results = [] ∧ o.error ≠ none) ∧
    (o.success = true →
      ((execute_search b q m t fuel).usedOneshot = true →
        o.statistics.map SearchStatistics.result_count = some o.results.length) ∧
      ((execute_search b q m t fuel).usedOneshot = false →
        o.results = [] ∧
          o.statistics.map SearchStatistics.result_count = some b.job.resultCount)) := by
  unfold execute_search at ho ⊢
  by_cases h : m ≤ 100 ∧ 30 ≤ t
  · rw [if_pos h] at ho ⊢
    cases hos : b.oneshot (normalizeQuery q) m with
    | ok recs =>
      rw [hos] at ho
      simp only [Option.some.injEq] at ho
      subst ho
      simp
    | error e =>
      rw [hos] at ho
      have hinv := job_path_outcome b.job (normalizeQuery q) m t fuel true o ho
      refine ⟨hinv.1, fun hs => ⟨fun hu => ?_, fun _ => hinv.2 hs⟩⟩
      rw [jobTrace_usedOneshot] at hu
      exact absurd hu (by simp)
  · rw [if_neg h] at ho ⊢
    have hinv := job_path_outcome b.job (normalizeQuery q) m t fuel false o ho
    refine ⟨hinv.1, fun hs => ⟨fun hu => ?_, fun _ => hinv.2 hs⟩⟩
    rw [jobTrace_usedOneshot] at hu
    exact absurd hu (by simp)

/-- If the job is not done through check `i + d`, neither the timeout nor a
refresh failure fires before check `i + d`, and the elapsed time exceeds the
timeout at check `i + d`, then the wait loop raises `TimeoutError`. -/
theorem waitLoop_timedOut (j : JobModel) :
    ∀ (d i fuel : Nat), d < fuel →
      (∀ k, i ≤ k → k ≤ i + d → j.isDone k = false) →
      (∀ k, i ≤ k → k < i + d → j.exceedsTimeout k = false ∧ j.refreshFails k = false) →
      j.exceedsTimeout (i + d) = true →
      waitLoop j fuel i = some .timedOut := by
  intro d
  induction d with
  | zero =>
    intro i fuel hf hdone hprev hex
    cases fuel with
    | zero => omega
    | succ f =>
      unfold waitLoop
      rw [hdone i le_rfl (by omega)]
      rw [show i + 0 = i from rfl] at hex
      rw [hex]
      simp
  | succ d ih =>
    intro i fuel hf hdone hprev hex
    cases fuel with
    | zero => omega
    | succ f =>
      unfold waitLoop
      rw [hdone i le_rfl (by omega)]
      have h0 := hprev i le_rfl (by omega)
      rw [h0.1, h0.2]
      simp only [Bool.false_eq_true, if_false]
      refine ih (i + 1) f (by omega)
        (fun k hk1 hk2 => hdone k (by omega) (by omega))
        (fun k hk1 hk2 => hprev k (by omega) (by omega)) ?_
      have : i + 1 + d = i + (d + 1) := by omega
      rw [this]
      exact hex

/-- C3: if, with the fallback path reached (either because the fast-path
condition fails or because the oneshot call raises), the elapsed wait exceeds
the caller-supplied timeout at poll check `n` before the job reports
completion, then `execute_search` returns a `success:false` outcome whose
error is the "Search timed out after ... seconds" message, and a cancel
attempt is made.  The conclusion holds for every value of
`b.job.cancelFails`, i.e. a failing cancel is swallowed. -/
theorem execute_search_timeout (b : SearchBackend) (q : String) (m t fuel n : Nat)
    (hfall : ¬(m ≤ 100 ∧ 30 ≤ t) ∨ ∃ e, b.oneshot (normalizeQuery q) m = .error e)
    (hcreate : b.job.createError = none)
    (hn : n < fuel)
    (hdone : ∀ k, k ≤ n → b.job.isDone k = false)
    (hprev : ∀ k, k < n → b.job.exceedsTimeout k = false ∧ b.job.refreshFails k = false)
    (hex : b.job.exceedsTimeout n = true) :
    (execute_search b q m t fuel).outcome =
        some ⟨false, [], none, some (timeoutMessage t), normalizeQuery q, none⟩ ∧
      (execute_search b q m t fuel).cancelAttempted = true := by
  have hw : waitLoop b.job fuel 0 = some .timedOut :=
    waitLoop_timedOut b.job n 0 fuel hn (fun k _ hk => hdone k (by omega))
      (fun k _ hk => hprev k (by omega)) (by simpa using hex)
  have hjob : execute_job_search b.job (normalizeQuery q) m t fuel =
      some ⟨.error (timeoutMessage t), true⟩ := by
    unfold execute_job_search
    rw [hcreate, hw]
  unfold execute_search
  rcases hfall with h | ⟨e, he⟩
  · rw [if_neg h, hjob]
    exact ⟨rfl, rfl⟩
  · by_cases h : m ≤ 100 ∧ 30 ≤ t
    · rw [if_pos h, he, hjob]
      exact ⟨rfl, rfl⟩
    · rw [if_neg h, hjob]
      exact ⟨rfl, rfl⟩

/-- A concrete job that completes at the first poll, with backend-reported
counts 5/10 and duration 3. -/
def jobQuick : JobModel :=
  ⟨"job123", none, fun _ => true, fun _ => false, fun _ => false, false, none, 5, 10, 3⟩

/-- A concrete backend whose oneshot call succeeds with one record. -/
def backendOneshotOk : SearchBackend :=
  ⟨fun _ _ => .ok [[("_raw", "event1")]], 2, jobQuick⟩

/-- A concrete job that never reports completion and whose elapsed time
exceeds the caller timeout from the second check on; its `cancel` raises. -/
def jobSlow : JobModel :=
  ⟨"job456", none, fun _ => false, fun k => decide (1 ≤ k), fun _ => false, true, none, 0, 0, 0⟩

/-- A concrete backend whose oneshot call raises. -/
def backendOneshotRaises : SearchBackend :=
  ⟨fun _ _ => .error "oneshot failed", 0, jobSlow⟩

/-- The outcome produced by `backendOneshotOk` on the fast path. -/
def oneshotOkOutcome : SearchOutcome :=
  ⟨true, [[("_raw", "event1")]], some ⟨1, none, 2, "oneshot", true⟩, none,
    "search index=main", none⟩

theorem execute_search_outcome_invariant_witness :
    (execute_search backendOneshotOk "search index=main" 10 60 5).outcome =
        some oneshotOkOutcome ∧
      ((oneshotOkOutcome.success = false →
          oneshotOkOutcome.results = [] ∧ oneshotOkOutcome.error ≠ none) ∧
        (oneshotOkOutcome.success = true →
          ((execute_search backendOneshotOk "search index=main" 10 60 5).usedOneshot = true →
            oneshotOkOutcome.statistics.map SearchStatistics.result_count =
              some oneshotOkOutcome.results.length) ∧
          ((execute_search backendOneshotOk "search index=main" 10 60 5).usedOneshot = false →
            oneshotOkOutcome.results = [] ∧
              oneshotOkOutcome.statistics.map SearchStatistics.result_count =
                some backendOneshotOk.job.resultCount))) :=
  ⟨rfl, execute_search_outcome_invariant backendOneshotOk "search index=main" 10 60 5
    oneshotOkOutcome rfl⟩

theorem execute_search_timeout_witness :
    (execute_search backendOneshotRaises "search index=main" 10 60 5).outcome =
        some ⟨false, [], none, some (timeoutMessage 60), "search index=main", none⟩ ∧
      (execute_search backendOneshotRaises "search index=main" 10 60 5).cancelAttempted = true :=
  execute_search_timeout backendOneshotRaises "search index=main" 10 60 5 1
    (Or.inr ⟨"oneshot failed", rfl⟩) rfl (by omega)
    (fun k _ => rfl)
    (fun k hk => by
      have hk0 : k = 0 := by omega
      subst hk0
      exact ⟨rfl, rfl⟩)
    rfl

/-- C6 counterexample: a successful fast-path outcome whose statistics
dictionary has no `scan_count` entry, contradicting the claim that every
successful outcome carries all `SearchStatistics` fields including
`scan_count ≥ 0` (the oneshot path at `splunk_client.py` lines 141-146 builds
its statistics dictionary without a `scan_count` key). -/
theorem execute_search_statistics_missing_scan_count :
    ((execute_search backendOneshotOk "search index=main" 10 60 5).outcome.map
        SearchOutcome.success) = some true ∧
      (((execute_search backendOneshotOk "search index=main" 10 60 5).outcome.bind
          SearchOutcome.statistics).bind SearchStatistics.scan_count) = none :=
  ⟨rfl, rfl⟩

theorem job_path_statistics (j : JobModel) (q : String) (m t fuel : Nat) (osa : Bool)
    (o : SearchOutcome)
    (ho : (jobTrace q osa (execute_job_search j q m t fuel)).outcome = some o)
    (hs : o.success = true) :
    o.statistics.isSome = true ∧
    ∀ st, o.statistics = some st →
      st.scan_count = some j.scanCount ∧ st.search_id = j.sid ∧
        st.result_count = j.resultCount ∧ st.run_duration = j.runDuration := by
  unfold execute_job_search at ho
  cases hc : j.createError with
  | some ce =>
    simp only [hc, jobTrace, Option.some.injEq] at ho
    subst ho
    simp at hs
  | none =>
    cases hw : waitLoop j fuel 0 with
    | none => simp [hc, hw, jobTrace] at ho
    | some w =>
      cases w with
      | timedOut =>
        simp only [hc, hw, jobTrace, Option.some.injEq] at ho
        subst ho
        simp at hs
      | exited n =>
        cases hm : j.metaError with
        | some me =>
          simp only [hc, hw, hm, jobTrace, Option.some.injEq] at ho
          subst ho
          simp at hs
        | none =>
          simp only [hc, hw, hm, jobTrace, Option.some.injEq] at ho
          subst ho
          refine ⟨rfl, fun st hst => ?_⟩
          simp only [Option.some.injEq] at hst
          subst hst
          exact ⟨rfl, rfl, rfl, rfl⟩

/-- C6 (amended): every successful outcome carries a statistics record with
`result_count`, `run_duration`, `search_id` and `is_done` (all `Nat`-valued
quantities are nonnegative by construction); the fallback path additionally
carries `scan_count` (the backend-reported value) and its `search_id` is the
backend job identifier, while the fast path omits the `scan_count` key and
uses the sentinel `"oneshot"` as `search_id`, with
`result_count = len(results)` and the measured oneshot duration. -/
theorem execute_search_statistics_fields (b : SearchBackend) (q : String)
    (m t fuel : Nat) (o : SearchOutcome)
    (ho : (execute_search b q m t fuel).outcome = some o)
    (hs : o.success = true) :
    o.statistics.isSome = true ∧
    (∀ st, o.statistics = some st →
      ((execute_search b q m t fuel).usedOneshot = true →
        st.scan_count = none ∧ st.search_id = "oneshot" ∧ st.is_done = true ∧
          st.result_count = o.results.length ∧ st.run_duration = b.oneshotDuration) ∧
      ((execute_search b q m t fuel).usedOneshot = false →
        st.scan_count = some b.job.scanCount ∧ st.search_id = b.job.sid ∧
          st.result_count = b.job.resultCount ∧ st.run_duration = b.job.runDuration)) := by
  unfold execute_search at ho ⊢
  by_cases h : m ≤ 100 ∧ 30 ≤ t
  · rw [if_pos h] at ho ⊢
    cases hos : b.oneshot (normalizeQuery q) m with
    | ok recs =>
      rw [hos] at ho
      simp only [Option.some.injEq] at ho
      subst ho
      refine ⟨rfl, fun st hst => ?_⟩
      simp only [Option.some.injEq] at hst
      subst hst
      exact ⟨fun _ => ⟨rfl, rfl, rfl, rfl, rfl⟩, fun hfalse => by simp at hfalse⟩
    | error e =>
      rw [hos] at ho
      have hstat := job_path_statistics b.job (normalizeQuery q) m t fuel true o ho hs
      refine ⟨hstat.1, fun st hst => ⟨fun hu => ?_, fun _ => ?_⟩⟩
      · rw [jobTrace_usedOneshot] at hu
        exact absurd hu (by simp)
      · have := hstat.2 st hst
        exact ⟨this.1, this.2.1, this.2.2.1, this.2.2.2⟩
  · rw [if_neg h] at ho ⊢
    have hstat := job_path_statistics b.job (normalizeQuery q) m t fuel false o ho hs
    refine ⟨hstat.1, fun st hst => ⟨fun hu => ?_, fun _ => ?_⟩⟩
    · rw [jobTrace_usedOneshot] at hu
      exact absurd hu (by simp)
    · have := hstat.2 st hst
      exact ⟨this.1, this.2.1, this.2.2.1, this.2.2.2⟩

theorem execute_search_statistics_fields_witness :
    (execute_search backendOneshotOk "search index=main" 10 60 5).outcome =
        some oneshotOkOutcome ∧
      oneshotOkOutcome.success = true ∧
      (oneshotOkOutcome.statistics.isSome = true ∧
        (∀ st, oneshotOkOutcome.statistics = some st →
          ((execute_search backendOneshotOk "search index=main" 10 60 5).usedOneshot = true →
            st.scan_count = none ∧ st.search_id = "oneshot" ∧ st.is_done = true ∧
              st.result_count = oneshotOkOutcome.results.length ∧
              st.run_duration = backendOneshotOk.oneshotDuration) ∧
          ((execute_search backendOneshotOk "search index=main" 10 60 5).usedOneshot = false →
            st.scan_count = some backendOneshotOk.job.scanCount ∧
              st.search_id = backendOneshotOk.job.sid ∧
              st.result_count = backendOneshotOk.job.resultCount ∧
              st.run_duration = backendOneshotOk.job.runDuration))) :=
  ⟨rfl, rfl, execute_search_statistics_fields backendOneshotOk "search index=main" 10 60 5
    oneshotOkOutcome rfl rfl⟩

/-- The hardcoded fallback index list of `SplunkClient.get_indexes`
(`splunk_client.py` line 227), in its literal order. -/
def fallback_indexes : List String := ["main", "_internal", "_audit", "summary"]

/-- `SplunkClient.get_indexes` (lines 212-227).  `backendIndexes` is the
combined behaviour of the lazy reconnect plus the iteration over
`self.service.indexes` (both inside the `try`): the names collected, or the
message of whichever exception was raised.  Python's `sorted` (a stable
ascending sort by code-point string comparison) is modelled by
`List.insertionSort`. -/
def get_indexes (backendIndexes : Except String (List String)) : List String :=
  match backendIndexes with
  | .ok idxs => List.insertionSort pyLeRel idxs
  | .error _ => fallback_indexes

/-- C9 counterexample: when the backend listing fails, `get_indexes` returns
the fallback list `["main", "_internal", "_audit", "summary"]`, which is not
sorted (`"main" > "_internal"` in code-point order), contradicting the claim
that the result is always sorted. -/
theorem get_indexes_fallback_not_sorted :
    get_indexes (.error "connection refused") =
        ["main", "_internal", "_audit", "summary"] ∧
      ¬ List.Sorted pyLeRel (get_indexes (.error "connection refused")) := by
  refine ⟨rfl, fun h => ?_⟩
  have hmi := (List.pairwise_cons.mp h).1 "_internal" (by simp)
  exact absurd hmi (by decide)

/-- C9 (amended): when the backend listing succeeds, `get_indexes` returns the
index names sorted (a permutation of the input, sorted by code-point order);
when the listing fails for any reason, it returns the fixed fallback list of
well-known default index names — in its literal, unsorted order — instead of
raising. -/
theorem get_indexes_spec (r : Except String (List String)) :
    (∀ idxs, r = .ok idxs →
      get_indexes r = List.insertionSort pyLeRel idxs ∧
        List.Sorted pyLeRel (get_indexes r) ∧ (get_indexes r).Perm idxs) ∧
    (∀ e, r = .error e → get_indexes r = fallback_indexes) := by
  constructor
  · intro idxs h
    subst h
    exact ⟨rfl, List.sorted_insertionSort _ _, List.perm_insertionSort _ _⟩
  · intro e h
    subst h
    rfl

theorem get_indexes_spec_witness :
    ((Except.ok ["main", "_audit"] : Except String (List String)) = .ok ["main", "_audit"]) ∧
      (get_indexes (.ok ["main", "_audit"]) = List.insertionSort pyLeRel ["main", "_audit"] ∧
        List.Sorted pyLeRel (get_indexes (.ok ["main", "_audit"])) ∧
        (get_indexes (.ok ["main", "_audit"])).Perm ["main", "_audit"]) :=
  ⟨rfl, (get_indexes_spec (.ok ["main", "_audit"])).1 ["main", "_audit"] rfl⟩

/-! Embedding of `validate_spl_query` from `src/utils/validators.py`
(lines 46-97).  The regular expressions of the source are modelled by
structurally recursive scanners: `\b cmd \b` (for a `cmd` made of word
characters) by `containsWord`, `^\s*\|` by `hasLeadingPipe`, and `\|\s*\|` by
`hasDoublePipe`.  Word characters are the ASCII `[a-zA-Z0-9_]` class. -/

/-- A regex word character (`\w`). -/
def isWordChar (c : Char) : Bool := c.isAlphanum || c = '_'

/-- `w` occurs at the head of `s` and the character after it (if any) is not a
word character. -/
def wordMatchHere (w s : List Char) : Bool :=
  w.isPrefixOf s &&
    (match s.drop w.length with
     | [] => true
     | c :: _ => !isWordChar c)

/-- Scan `s` for a whole-word occurrence of `w`; `prevIsWord` says whether the
character before the current position is a word character. -/
def containsWordAux (w : List Char) : List Char → Bool → Bool
  | [], _ => false
  | c :: rest, prevIsWord =>
    (!prevIsWord && wordMatchHere w (c :: rest)) || containsWordAux w rest (isWordChar c)

/-- Python `re.search(r'\b' + w + r'\b', s) is not None`, for a pattern `w`
consisting of word characters. -/
def containsWord (w : String) (s : String) : Bool := containsWordAux w.data s.data false

/-- Python `re.search(r'^\s*\|', s) is not None`. -/
def hasLeadingPipe (s : String) : Bool :=
  match s.data.dropWhile Char.isWhitespace with
  | [] => false
  | c :: _ => c = '|'

/-- After a pipe: skip whitespace and look for a second pipe (the `\s*\|` tail
of the `\|\s*\|` pattern). -/
def pipeAfterSpaces : List Char → Bool
  | [] => false
  | c :: rest => if c = '|' then true else if c.isWhitespace then pipeAfterSpaces rest else false

/-- Python `re.search(r'\|\s*\|', s) is not None`. -/
def hasDoublePipe : List Char → Bool
  | [] => false
  | c :: rest => (c = '|' && pipeAfterSpaces rest) || hasDoublePipe rest

/-- The denylist of `validators.py` lines 70-82. -/
def dangerous_commands : List String :=
  ["delete", "drop", "truncate", "alter", "create", "update", "insert",
    "outputcsv", "outputlookup", "script", "sendemail"]

/-- `validate_spl_query` (`validators.py` lines 46-97).  The source returns
early on each failed check; the quotes of the original error strings are
dropped.  All checks after the first operate on the stripped query, and the
`startswith` check is made on the lowercased stripped query with the bare
keyword `search` (no trailing space). -/
def validate_spl_query (query : String) : Bool × Option String :=
  if pyStrip query = "" then (false, some "SPL query cannot be empty")
  else
    let q := pyStrip query
    if pyStartsWith (pyLower q) "search" = false then
      (false, some "SPL query must start with search command")
    else if pyLen q > 5000 then
      (false, some "SPL query too long (max 5000 characters)")
    else
      match dangerous_commands.find? (fun c => containsWord c (pyLower q)) with
      | some cmd => (false, some ("SPL query contains potentially dangerous command: " ++ cmd))
      | none =>
        if (hasLeadingPipe q || hasDoublePipe q.data) = true then
          (false, some "Invalid pipe usage in SPL query")
        else (true, none)

/-- C7: `validate_spl_query` accepts exactly the queries that are nonempty
after stripping, start (case-insensitively) with the search keyword, have
stripped length at most 5000, contain no denylisted verb as a whole word, and
have no leading pipe and no two consecutive pipes.  (Emptiness, length and
the remaining checks are all read on the stripped query, as in the source.) -/
theorem validate_spl_query_iff (query : String) :
    (validate_spl_query query).1 = true ↔
      (pyStrip query ≠ "" ∧
        pyStartsWith (pyLower (pyStrip query)) "search" = true ∧
        pyLen (pyStrip query) ≤ 5000 ∧
        (∀ c ∈ dangerous_commands, containsWord c (pyLower (pyStrip query)) = false) ∧
        hasLeadingPipe (pyStrip query) = false ∧
        hasDoublePipe (pyStrip query).data = false) := by
  unfold validate_spl_query
  by_cases h1 : pyStrip query = ""
  · simp [h1]
  · rw [if_neg h1]
    by_cases h2 : pyStartsWith (pyLower (pyStrip query)) "search" = false
    · rw [if_pos h2]
      simp [h1, h2]
    · rw [if_neg h2]
      have h2' : pyStartsWith (pyLower (pyStrip query)) "search" = true := by
        revert h2; cases pyStartsWith (pyLower (pyStrip query)) "search" <;> simp
      by_cases h3 : pyLen (pyStrip query) > 5000
      · rw [if_pos h3]
        simp [h1, h2']
        omega
      · rw [if_neg h3]
        cases hf : dangerous_commands.find? (fun c => containsWord c (pyLower (pyStrip query))) with
        | some cmd =>
          have hmem := List.mem_of_find?_eq_some hf
          have hcw := List.find?_some hf
          simp only [decide_eq_true_eq] at hcw
          simp only []
          constructor
          · intro hx; exact absurd hx (by simp)
          · rintro ⟨-, -, -, hall, -, -⟩
            exact absurd (hall cmd hmem) (by simp [hcw])
        | none =>
          have hall := List.find?_eq_none.mp hf
          by_cases h4 : (hasLeadingPipe (pyStrip query) || hasDoublePipe (pyStrip query).data) = true
          · rw [if_pos h4]
            rcases Bool.or_eq_true_iff.mp h4 with hp | hp
            · simp [hp]
            · simp [hp]
          · rw [if_neg h4]
            have hp := Bool.or_eq_false_iff.mp (Bool.eq_false_iff.mpr h4)
            constructor
            · intro _
              refine ⟨h1, h2', by omega, ?_, hp.1, hp.2⟩
              intro c hc
              have := hall c hc
              revert this
              cases containsWord c (pyLower (pyStrip query)) <;> simp
            · intro _
              rfl

theorem validate_spl_query_iff_witness :
    (validate_spl_query "search index=main | head 5").1 = true :=
  (validate_spl_query_iff "search index=main | head 5").mpr (by decide)

/-! Embedding of `OpenAIClient._parse_spl_response` from
`src/core/openai_client.py` (lines 109-148). -/

/-- The dictionary produced by `_parse_spl_response` (the keys the callers
read, each defaulting to a string). -/
structure SplInfo where
  query : String
  explanation : String
  confidence : String
  deriving Repr, DecidableEq

/-- Python `w in s` (substring containment). -/
def strContainsAux (w : List Char) : List Char → Bool
  | [] => w.isPrefixOf []
  | c :: rest => w.isPrefixOf (c :: rest) || strContainsAux w rest

/-- Python `w in s` on strings. -/
def strContains (s w : String) : Bool := strContainsAux w.data s.data

/-- One step of the line scan (lines 121-126): a stripped line starting with
`"search "` becomes the query; otherwise a line containing `"explanation"` or
`"does"` (lowercased) becomes the explanation; the last match of each kind
wins. -/
def scanLine (acc : String × String) (line : String) : String × String :=
  let l := pyStrip line
  if pyStartsWith l "search " then (l, acc.2)
  else if (strContains (pyLower l) "explanation" || strContains (pyLower l) "does") = true then
    (acc.1, l)
  else acc

/-- `_parse_spl_response` (lines 109-148).  `jsonLoads` abstracts
`json.loads` plus the key reads with defaults: `.ok` is a successful
structured parse, `.error` a raised `json.JSONDecodeError`.  The structured
parse is only reached when the stripped content starts with a brace; the
`except` block (lines 134-148) is only reachable from a raised `json.loads`,
because the line scan raises nothing. -/
def parse_spl_response (jsonLoads : String → Except String SplInfo)
    (content : String) : SplInfo :=
  if pyStartsWith (pyStrip content) "\x7b" then
    match jsonLoads content with
    | .ok info => info
    | .error _ =>
      if pyStartsWith (pyStrip content) "search " then
        ⟨pyStrip content, "Query generated from natural language", "low"⟩
      else
        ⟨"", "Failed to parse response", "low"⟩
  else
    let scanned := (pySplitLines content).foldl scanLine ("", "")
    ⟨scanned.1, scanned.2, "medium"⟩

/-- A `json.loads` behaviour that always raises (unused by the non-brace
branch of the parser). -/
def jsonAlwaysRaises : String → Except String SplInfo := fun _ => .error "Expecting value"

/-- C5 counterexample: on the completion text `"hello world"` — which does not
start with a brace, has no line starting with the search keyword, and does not
itself start with the search keyword — the parser returns an empty query with
confidence `"medium"` (the line-scan branch always returns `"medium"`),
whereas the claim requires confidence `"low"` for this case. -/
theorem parse_spl_response_plain_text_medium :
    parse_spl_response jsonAlwaysRaises "hello world" = ⟨"", "", "medium"⟩ ∧
      ("medium" : String) ≠ "low" :=
  ⟨rfl, by decide⟩

/-- C5 (amended): the parsing cascade of `_parse_spl_response`: the structured
JSON parse is attempted only when the stripped text starts with a brace; when
it is not attempted, the line scan runs and always returns with confidence
`"medium"` (query and explanation possibly empty); when the structured parse
raises, control passes directly to the raw-text fallback — the entire
stripped text becomes the query with confidence `"low"` if it starts with the
search keyword, and otherwise the result is an empty query with confidence
`"low"`.  The line scan is never reached from a failed structured parse. -/
theorem parse_spl_response_cascade (jsonLoads : String → Except String SplInfo)
    (content : String) :
    (pyStartsWith (pyStrip content) "\x7b" = false →
      parse_spl_response jsonLoads content =
        ⟨((pySplitLines content).foldl scanLine ("", "")).1,
          ((pySplitLines content).foldl scanLine ("", "")).2, "medium"⟩) ∧
    (pyStartsWith (pyStrip content) "\x7b" = true →
      (∀ info, jsonLoads content = .ok info → parse_spl_response jsonLoads content = info) ∧
      (∀ e, jsonLoads content = .error e →
        (pyStartsWith (pyStrip content) "search " = true →
          parse_spl_response jsonLoads content =
            ⟨pyStrip content, "Query generated from natural language", "low"⟩) ∧
        (pyStartsWith (pyStrip content) "search " = false →
          parse_spl_response jsonLoads content =
            ⟨"", "Failed to parse response", "low"⟩))) := by
  unfold parse_spl_response
  by_cases hb : pyStartsWith (pyStrip content) "\x7b" = true
  · rw [if_pos hb]
    refine ⟨fun hfalse => by rw [hb] at hfalse; exact absurd hfalse (by simp), fun _ => ⟨?_, ?_⟩⟩
    · intro info hok
      rw [hok]
    · intro e herr
      rw [herr]
      constructor
      · intro hs
        rw [if_pos hs]
      · intro hs
        rw [if_neg (by simp [hs])]
  · have hb' : pyStartsWith (pyStrip content) "\x7b" = false := by
      revert hb; cases pyStartsWith (pyStrip content) "\x7b" <;> simp
    rw [if_neg (by simp [hb'])]
    exact ⟨fun _ => rfl, fun htrue => absurd htrue (by simp [hb'])⟩

theorem parse_spl_response_cascade_witness :
    pyStartsWith (pyStrip "line one\nsearch index=web error\nThis query does a count")
        "\x7b" = false ∧
      parse_spl_response jsonAlwaysRaises
          "line one\nsearch index=web error\nThis query does a count" =
        ⟨"search index=web error", "This query does a count", "medium"⟩ :=
  ⟨by decide,
    (parse_spl_response_cascade jsonAlwaysRaises
      "line one\nsearch index=web error\nThis query does a count").1 (by decide)⟩

/-! Embedding of `QueryProcessor` from `src/core/query_processor.py`.  The
collaborator calls made by the orchestrator (`openai_client.natural_to_spl`,
`splunk_client.validate_spl`, `splunk_client.execute_search`) are modelled as
`Except String` behaviours: `.error` is a raised exception, caught by the
orchestrator's outer `try`.  The wall-clock `processing_time` and the
`details`/`spl_result` payloads of the failure responses carry no logical
content and are omitted from the response model. -/

/-- The dictionary returned by `natural_to_spl`, as read by the orchestrator
(`.get("success")`, `.get("spl_query", "")`, `.get("explanation", "")`,
`.get("confidence", "medium")`). -/
structure TranslationResult where
  success : Bool
  spl_query : String
  explanation : String
  confidence : String
  error : Option String
  deriving Repr, DecidableEq

/-- The dictionary returned by `validate_spl`. -/
structure ValidationOutcome where
  valid : Bool
  query : String
  error : Option String
  deriving Repr, DecidableEq

/-- The orchestrator's response dictionary; a key absent from a particular
branch of the source is `none` / `[]`. -/
structure Response where
  success : Bool
  question : Option String
  spl_query : Option String
  explanation : Option String
  confidence : Option String
  results : List SplRecord
  result_count : Option Nat
  statistics : Option SearchStatistics
  validation : Option ValidationOutcome
  error : Option String
  deriving Repr, DecidableEq

/-- The behaviours of the orchestrator's collaborators during one call, each
as a function of the argument the orchestrator passes. -/
structure OrchEnv where
  translate : String → Except String TranslationResult
  validate : String → Except String ValidationOutcome
  search : String → Except String SearchOutcome

/-- The `try` body of `process_natural_language_query`
(`query_processor.py` lines 34-89).  The `_get_splunk_context` step is total
(it catches internally and falls back to a default context) and only feeds
the translation prompt, so it is folded into `translate`. -/
def procNLQBody (env : OrchEnv) (question : String) : Except String Response :=
  match env.translate question with
  | .error e => .error e
  | .ok spl_result =>
    if spl_result.success = false then
      .ok ⟨false, none, none, none, none, [], none, none, none,
        some "Failed to convert question to SPL"⟩
    else if spl_result.spl_query = "" then
      .ok ⟨false, none, none, none, none, [], none, none, none,
        some "No valid SPL query generated"⟩
    else
      match env.validate spl_result.spl_query with
      | .error e => .error e
      | .ok validation =>
        match env.search spl_result.spl_query with
        | .error e => .error e
        | .ok search_result =>
          .ok ⟨search_result.success, some question, some spl_result.spl_query,
            some spl_result.explanation, some spl_result.confidence,
            search_result.results, some search_result.results.length,
            search_result.statistics, some validation,
            if search_result.success = true then none
            else some (search_result.error.getD "Unknown execution error")⟩

/-- `QueryProcessor.process_natural_language_query` (lines 21-98): the body
above wrapped in the outer `try/except` that converts any raised exception
into a `success:false` response carrying the exception message. -/
def process_natural_language_query (env : OrchEnv) (question : String) : Response :=
  match procNLQBody env question with
  | .ok r => r
  | .error e => ⟨false, some question, none, none, none, [], none, none, none, some e⟩

/-- The `try` body of `execute_spl_query` (lines 113-135): validation is
advisory (its outcome is recorded but never gates execution). -/
def execSplBody (env : OrchEnv) (spl_query : String) : Except String Response :=
  match env.validate spl_query with
  | .error e => .error e
  | .ok validation =>
    match env.search spl_query with
    | .error e => .error e
    | .ok search_result =>
      .ok ⟨search_result.success, none, some spl_query, none, none,
        search_result.results, some search_result.results.length,
        search_result.statistics, some validation,
        if search_result.success = true then none
        else some (search_result.error.getD "Unknown execution error")⟩

/-- `QueryProcessor.execute_spl_query` (lines 100-144): the body wrapped in
the outer `try/except`; the exception response also carries the input query. -/
def execute_spl_query (env : OrchEnv) (spl_query : String) : Response :=
  match execSplBody env spl_query with
  | .ok r => r
  | .error e => ⟨false, none, some spl_query, none, none, [], none, none, none, some e⟩

/-- C4: both outward-facing orchestrator operations are total — they are
functions into `Response` even though every collaborator behaviour (including
a raised exception, modelled by `.error`) is quantified over — and on every
path either `success` is true or the `error` field is set, so all failure
modes resolve to a returned `success:false`-with-`error` value. -/
theorem orchestrator_total (env : OrchEnv) (question spl : String) :
    ((process_natural_language_query env question).success = true ∨
        (process_natural_language_query env question).error.isSome = true) ∧
      ((execute_spl_query env spl).success = true ∨
        (execute_spl_query env spl).error.isSome = true) := by
  constructor
  · unfold process_natural_language_query procNLQBody
    cases ht : env.translate question with
    | error e => simp
    | ok spl_result =>
      by_cases h1 : spl_result.success = false
      · simp [h1]
      · by_cases h2 : spl_result.spl_query = ""
        · simp [h1, h2]
        · cases hv : env.validate spl_result.spl_query with
          | error e => simp [h1, h2, hv]
          | ok validation =>
            cases hs : env.search spl_result.spl_query with
            | error e => simp [h1, h2, hv, hs]
            | ok search_result =>
              by_cases h3 : search_result.success = true
              · simp [h1, h2, hv, hs, h3]
              · simp [h1, h2, hv, hs, h3]
  · unfold execute_spl_query execSplBody
    cases hv : env.validate spl with
    | error e => simp
    | ok validation =>
      cases hs : env.search spl with
      | error e => simp [hv, hs]
      | ok search_result =>
        by_cases h3 : search_result.success = true
        · simp [hv, hs, h3]
        · simp [hv, hs, h3]

/-- C8: the `spl_query` field of the `execute_spl_query` response equals the
caller's input string, unmodified (the normalization inside the search
executor operates on its own copy), for every input starting with the search
keyword and a space. -/
theorem execute_spl_query_roundtrip (env : OrchEnv) (spl : String)
    (h : pyStartsWith spl "search " = true) :
    (execute_spl_query env spl).spl_query = some spl := by
  unfold execute_spl_query execSplBody
  cases env.validate spl with
  | error e => rfl
  | ok validation =>
    cases env.search spl with
    | error e => rfl
    | ok search_result => rfl

/-- A concrete collaborator environment in which every call succeeds. -/
def envAllOk : OrchEnv :=
  ⟨fun q => .ok ⟨true, "search index=main | head 10", "first ten events", "high", none⟩,
    fun q => .ok ⟨true, q, none⟩,
    fun q => .ok ⟨true, [[("_raw", "event1")]], some ⟨1, none, 2, "oneshot", true⟩, none, q, none⟩⟩

theorem execute_spl_query_roundtrip_witness :
    pyStartsWith "search index=main | head 10" "search " = true ∧
      (execute_spl_query envAllOk "search index=main | head 10").spl_query =
        some "search index=main | head 10" :=
  ⟨by decide, execute_spl_query_roundtrip envAllOk "search index=main | head 10" (by decide)⟩

/-- One component entry of the health dictionary. -/
structure ComponentHealth where
  status : String
  detail : Option String
  deriving Repr, DecidableEq

/-- The dictionary returned by `get_health_status` (the `timestamp` field
carries no logical content and is omitted). -/
structure HealthStatus where
  overall_status : String
  splunk : ComponentHealth
  openai : ComponentHealth
  deriving Repr, DecidableEq

/-- Collaborator behaviours for one `get_health_status` call:
`indexBackend` is the backend index listing consumed by `get_indexes`
(which catches internally), and `apiKey` is the
`openai_client.client.api_key` attribute read — possibly raising, with `""`
modelling a falsy (absent) key. -/
structure HealthEnv where
  indexBackend : Except String (List String)
  apiKey : Except String String

/-- `QueryProcessor.get_health_status` (`query_processor.py` lines 210-246).
Because `get_indexes` catches every failure and returns the fallback list
(lines 224-227 of `splunk_client.py`), the call at line 219 never raises and
the `except` branch of the Splunk check (lines 224-229 of
`query_processor.py`, which would set status `"error"` and demote the overall
status) is unreachable; the Splunk component is therefore built
unconditionally from the returned list. -/
def get_health_status (env : HealthEnv) : HealthStatus :=
  let idxs := get_indexes env.indexBackend
  let splunk : ComponentHealth := ⟨"connected", some (toString idxs.length)⟩
  match env.apiKey with
  | .ok k =>
    if k ≠ "" then ⟨"healthy", splunk, ⟨"configured", none⟩⟩
    else ⟨"degraded", splunk, ⟨"not_configured", none⟩⟩
  | .error e => ⟨"degraded", splunk, ⟨"error", some e⟩⟩

/-- C10: for every backend behaviour (including a failing index listing) the
Splunk component of the health report has status `"connected"` — never
`"error"` — and the overall status is `"healthy"` or `"degraded"`, demoted to
`"degraded"` exactly when the OpenAI credential check fails (empty key or a
raised attribute read); the Splunk check never demotes it. -/
theorem health_splunk_always_connected (env : HealthEnv) :
    (get_health_status env).splunk.status = "connected" ∧
      ((get_health_status env).overall_status = "healthy" ∨
        (get_health_status env).overall_status = "degraded") ∧
      ((get_health_status env).overall_status = "degraded" ↔
        (env.apiKey = .ok "" ∨ ∃ e, env.apiKey = .error e)) := by
  unfold get_health_status
  cases hk : env.apiKey with
  | error e => exact ⟨rfl, Or.inr rfl, by simp⟩
  | ok k =>
    by_cases h : k = ""
    · subst h
      exact ⟨rfl, Or.inr rfl, by simp⟩
    · exact ⟨by simp [h], Or.inl (by simp [h]), by simp [h]⟩

/-- A concrete health environment with a failing index listing and a
configured key. -/
def envHealth : HealthEnv := ⟨.error "connection refused", .ok "sk-key"⟩

theorem health_splunk_always_connected_witness :
    (get_health_status envHealth).splunk.status = "connected" ∧
      ((get_health_status envHealth).overall_status = "healthy" ∨
        (get_health_status envHealth).overall_status = "degraded") ∧
      ((get_health_status envHealth).overall_status = "degraded" ↔
        (envHealth.apiKey = .ok "" ∨ ∃ e, envHealth.apiKey = .error e)) :=
  health_splunk_always_connected envHealth

end Spl
